import Mathlib

/-!
# Verification of the `Experiment` core of `cevae-evaluation`

Shallow embedding of `src/sample/experiment.py`.  Numeric values are
modelled over `ℚ`; a numpy floating scalar that may be non-finite
(NaN/Inf, as produced by numpy division by zero, which warns but does
not raise) is modelled as `Option ℚ` with `none` standing for the
non-finite result.  Python exceptions (AssertionError, IndexError,
TypeError) are modelled with `Except String`.  File-system side effects
(directories, `save_pandas_table`, graph output) and the stochastic
mechanism functions are not part of any claim and are left out of the
state; external collaborators (`compare.run`, model training) enter as
explicit function parameters.
-/

namespace CevaeEval

/-- A numpy float scalar: `none` models a non-finite value (NaN or Inf),
which numpy produces silently (with only a RuntimeWarning) on division
by zero or on the mean of an empty array. -/
abbrev NpFloat := Option ℚ

/-- `np.mean` of a 1-D array: NaN (`none`) when the array is empty,
otherwise the exact arithmetic mean. -/
def npMean (l : List ℚ) : NpFloat :=
  if l.length = 0 then none else some (l.sum / l.length)

/-- Subtraction on numpy float scalars; non-finite values propagate. -/
def nsub : NpFloat → NpFloat → NpFloat
  | some a, some b => some (a - b)
  | _, _ => none

/-- Absolute value (`np.abs`) on numpy float scalars. -/
def nabs : NpFloat → NpFloat
  | some a => some |a|
  | none => none

/-- Multiplication by a rational constant on numpy float scalars. -/
def nmul : NpFloat → ℚ → NpFloat
  | some a, c => some (a * c)
  | none, _ => none

/-- Division of numpy float scalars: numpy scalar division by zero does
not raise, it yields Inf or NaN (here: `none`) with a warning. -/
def ndivN : NpFloat → NpFloat → NpFloat
  | some a, some b => if b = 0 then none else some (a / b)
  | _, _ => none

/-- Division of an exact rational by a natural count, as performed by
`results / len(self.generators)`: a zero count yields NaN (`none`). -/
def divQ (x : ℚ) (n : ℕ) : NpFloat :=
  if n = 0 then none else some (x / n)

/-- A metric, as stored in `Experiment.metrics`: a function from
(ground-truth effects, predicted effects) to a scalar.  The `Except`
layer models a Python exception raised during evaluation (e.g. the
IndexError of the PEHE list comprehensions on short predictions). -/
abbrev Metric := List ℚ → List ℚ → Except String NpFloat

/-- `add_true_ate`: `lambda ite_truth, ite_pred: np.mean(ite_truth)`. -/
def trueATE : Metric := fun ite_truth _ => .ok (npMean ite_truth)

/-- `add_estimated_ate`: `lambda ite_truth, ite_pred: np.mean(ite_pred)`. -/
def estimatedATE : Metric := fun _ ite_pred => .ok (npMean ite_pred)

/-- `add_ate_error` ('eATE'):
`np.abs(np.mean(ite_truth) - np.mean(ite_pred))`. -/
def eATE : Metric := fun ite_truth ite_pred =>
  .ok (nabs (nsub (npMean ite_truth) (npMean ite_pred)))

/-- `add_ate_percent_error` ('eATE (%)'):
`np.abs((np.mean(ite_truth) - np.mean(ite_pred)) / np.mean(ite_truth)) * 100`.
When `np.mean(ite_truth)` is zero the scalar division yields Inf/NaN
(`none`) without raising. -/
def eATEpercent : Metric := fun ite_truth ite_pred =>
  .ok (nmul (nabs (ndivN (nsub (npMean ite_truth) (npMean ite_pred))
                         (npMean ite_truth))) 100)

/-- Shared body of the PEHE metrics:
`np.sum([g (t[i] - p[i]) for i in range(len(t))]) / np.prod(t.shape)`.
The list comprehension indexes `p[i]` for every `i < len t`, so it
raises IndexError exactly when the predictions are shorter than a
nonempty truth vector; `np.prod` of the shape of an empty 1-D array is
0, so an empty truth vector makes the final division produce NaN. -/
def peheBody (g : ℚ → ℚ) (ite_truth ite_pred : List ℚ) :
    Except String NpFloat :=
  if ite_truth.length ≤ ite_pred.length then
    .ok (divQ (((List.range ite_truth.length).map
          (fun i => g (ite_truth.getD i 0 - ite_pred.getD i 0))).sum)
        ite_truth.length)
  else .error "IndexError: list index out of range"

/-- `add_mean_squared_error` ('PEHE (MSE)'). -/
def peheMSE : Metric := fun ite_truth ite_pred =>
  peheBody (fun d => d ^ 2) ite_truth ite_pred

/-- `add_absolute_error` ('PEHE (MAE)'). -/
def peheMAE : Metric := fun ite_truth ite_pred =>
  peheBody (fun d => |d|) ite_truth ite_pred

/-- A registered model.  Models are external collaborators; only the
capability surface used by `Experiment` is modelled: a display name
(`str(model)`) and `estimate_causal_effect`. -/
structure Model where
  name : String
  estimate : List (List ℚ) → List ℚ

/-- A registered data generator, identified opaquely; its sampling
behaviour is an external collaborator reached through `compare.run`. -/
structure GenSpec where
  id : ℕ

/-- A result table: a pandas DataFrame with index column `method_name`
and one column per metric name. -/
structure ResultTable where
  columns : List String
  rows : List (String × List NpFloat)

/-- A Python `dict` entry update: assigning `d[k] = v` replaces the
value at an existing key in place (keeping its insertion position) and
otherwise appends the key at the end. -/
def dictInsert {α : Type} : List (String × α) → String → α → List (String × α)
  | [], k, v => [(k, v)]
  | (k1, v1) :: rest, k, v =>
      if k1 = k then (k1, v) :: rest
      else (k1, v1) :: dictInsert rest k v

/-- Python `dict` lookup. -/
def dictLookup {α : Type} : List (String × α) → String → Option α
  | [], _ => none
  | (k1, v1) :: rest, k => if k1 = k then some v1 else dictLookup rest k

/-- The `Experiment` aggregate state: accumulated result tables, the
(generator, sample_size) list, the model list, the insertion-ordered
metric dictionary, the `trained` flag and the `test_specific_set`
counter.  The mechanism-default lambdas set by `_set_defaults` and the
output-directory bookkeeping carry no claim-relevant state and are not
modelled. -/
structure Experiment where
  results : List ResultTable
  generators : List (GenSpec × ℕ)
  models : List Model
  metrics : List (String × Metric)
  trained : Bool
  count : ℕ

/-- `clear`: keep the models, drop generated data and results, reset
the `trained` flag (metrics and the run counter are untouched). -/
def clear (e : Experiment) : Experiment :=
  { e with results := [], generators := [], trained := false }

/-- `add_custom_metric`: `self.metrics[name] = scoring_function`. -/
def add_custom_metric (e : Experiment) (name : String) (f : Metric) :
    Experiment :=
  { e with metrics := dictInsert e.metrics name f }

def add_true_ate (e : Experiment) : Experiment :=
  add_custom_metric e "True ATE" trueATE

def add_estimated_ate (e : Experiment) : Experiment :=
  add_custom_metric e "Est. ATE" estimatedATE

def add_mean_squared_error (e : Experiment) : Experiment :=
  add_custom_metric e "PEHE (MSE)" peheMSE

def add_pehe_mse (e : Experiment) : Experiment :=
  add_mean_squared_error e

def add_absolute_error (e : Experiment) : Experiment :=
  add_custom_metric e "PEHE (MAE)" peheMAE

def add_pehe_mae (e : Experiment) : Experiment :=
  add_absolute_error e

def add_ate_error (e : Experiment) : Experiment :=
  add_custom_metric e "eATE" eATE

def add_ate_percent_error (e : Experiment) : Experiment :=
  add_custom_metric e "eATE (%)" eATEpercent

/-- `add_all_metrics`: chains the six built-in registrations in source
order (`eATE`, `eATE (%)`, `True ATE`, `Est. ATE`, `PEHE (MSE)`,
`PEHE (MAE)`). -/
def add_all_metrics (e : Experiment) : Experiment :=
  add_pehe_mae (add_pehe_mse (add_estimated_ate (add_true_ate
    (add_ate_percent_error (add_ate_error e)))))

/-- `add_custom_generator`: appends a `(generator, sample_size)` pair. -/
def add_custom_generator (e : Experiment) (g : GenSpec) (sample_size : ℕ) :
    Experiment :=
  { e with generators := e.generators ++ [(g, sample_size)] }

/-- `add_custom_model`: appends a model. -/
def add_custom_model (e : Experiment) (m : Model) : Experiment :=
  { e with models := e.models ++ [m] }

/-! ## The runner (`Experiment.run`)

`run` builds `model_dictionary = {str(model): model}` (a Python dict, so
duplicate display names collapse), starts the accumulator as the 1-D
integer array `np.array([0 for _ in metric_dictionary])`, adds to it the
`(models × metrics)` score matrix returned by the external `compare.run`
for each generator (numpy broadcasting turns 1-D + 2-D into 2-D), then
divides by `len(self.generators)` and assembles a DataFrame indexed by
the dictionary keys.  `compare.run` lives in the external `compare`
module and enters here as the `score` parameter. -/

/-- A numpy array that is either still the 1-D zero-initialised
accumulator or a 2-D score matrix. -/
inductive NpArr where
  | vec (v : List ℚ)
  | mat (m : List (List ℚ))

/-- Element-wise addition of equal-length 1-D arrays. -/
def vecAdd (v w : List ℚ) : List ℚ := List.zipWith (· + ·) v w

/-- numpy `+` on the shapes that occur in `run`: 1-D + 2-D broadcasts
the vector over every row. -/
def npAdd : NpArr → NpArr → NpArr
  | .vec v, .vec w => .vec (vecAdd v w)
  | .vec v, .mat m => .mat (m.map (fun r => vecAdd v r))
  | .mat m, .vec v => .mat (m.map (fun r => vecAdd r v))
  | .mat m, .mat m2 => .mat (List.zipWith vecAdd m m2)

/-- The divided array, whose entries may be NaN. -/
inductive NpArrF where
  | vec (v : List NpFloat)
  | mat (m : List (List NpFloat))

/-- `results / len(self.generators)` entry-wise; a zero generator count
yields NaN entries, not an exception. -/
def npDivCount : NpArr → ℕ → NpArrF
  | .vec v, n => .vec (v.map (fun x => divQ x n))
  | .mat m, n => .mat (m.map (fun r => r.map (fun x => divQ x n)))

/-- `model_dictionary = {}; for model in self.models:
model_dictionary[str(model)] = model`. -/
def modelDictionary (models : List Model) : List (String × Model) :=
  models.foldl (fun d m => dictInsert d m.name m) []

/-- The per-generator accumulation loop of `run`: starts from the 1-D
zero array of length `len(metric_dictionary)` and adds each generator's
score matrix. -/
def runSums (score : GenSpec → ℕ → List (List ℚ)) (e : Experiment) : NpArr :=
  e.generators.foldl (fun acc gn => npAdd acc (.mat (score gn.1 gn.2)))
    (.vec (List.replicate e.metrics.length 0))

/-- The table-assembly loop of `run`: row `index` of the averaged matrix
is prefixed with `list(model_dictionary.keys())[index]`, which raises
IndexError when the matrix has more rows than there are dictionary
keys. -/
def assembleRows : List String → List (List NpFloat) →
    Except String (List (String × List NpFloat))
  | _, [] => .ok []
  | [], _ :: _ => .error "IndexError: list index out of range"
  | k :: ks, r :: rs =>
      match assembleRows ks rs with
      | .error s => .error s
      | .ok rest => .ok ((k, r) :: rest)

/-- `Experiment.run`.  After the division, iterating a still-1-D
`results` (the empty-generator case with at least one metric) hands a
0-d `numpy.float64` scalar to `list(...)`, which raises TypeError; the
averaging division itself has already happened and produced NaN.  With
an empty metric dictionary the 1-D array is empty, the loop body never
runs and an empty table is appended.  In the 2-D case the averaged rows
are zipped with the model-dictionary keys, the table is appended to
`self.results` and `trained` is set. -/
def Experiment.run (score : GenSpec → ℕ → List (List ℚ)) (e : Experiment) :
    Except String Experiment :=
  match npDivCount (runSums score e) e.generators.length with
  | .vec v =>
      if v.isEmpty then
        .ok { e with results := e.results ++ [⟨e.metrics.map Prod.fst, []⟩],
                     trained := true }
      else .error "TypeError: numpy.float64 object is not iterable"
  | .mat m =>
      match assembleRows ((modelDictionary e.models).map Prod.fst) m with
      | .error s => .error s
      | .ok rows =>
          .ok { e with
                results := e.results ++ [⟨e.metrics.map Prod.fst, rows⟩],
                trained := true }

/-! ## `test_specific_set` and `get_result` -/

/-- `mapM` over `Except`, written out so its equations unfold. -/
def exMapM {α β : Type} (f : α → Except String β) :
    List α → Except String (List β)
  | [] => .ok []
  | x :: xs =>
      match f x with
      | .error s => .error s
      | .ok y =>
          match exMapM f xs with
          | .error s => .error s
          | .ok ys => .ok (y :: ys)

/-- One row of the `test_specific_set` table: the model's display name
followed by `metric(truth_set, predictions)` for every metric; a metric
exception propagates. -/
def modelRow (metrics : List (String × Metric)) (test_set : List (List ℚ))
    (truth_set : List ℚ) (m : Model) :
    Except String (String × List NpFloat) :=
  match exMapM (fun kv => kv.2 truth_set (m.estimate test_set)) metrics with
  | .error s => .error s
  | .ok scores => .ok (m.name, scores)

/-- The `assert self.trained` message of `test_specific_set`. -/
def notTrainedMsg : String :=
  "Models are not trained yet. Please make sure you run the full experiment first!"

/-- `test_specific_set`: asserts `self.trained` first (an untrained
experiment fails before any state is touched), increments the counter,
scores every model with every metric on the supplied set and appends
the resulting one-row-per-model table. -/
def test_specific_set (test_set : List (List ℚ)) (truth_set : List ℚ)
    (e : Experiment) : Except String Experiment :=
  if e.trained then
    match exMapM (modelRow e.metrics test_set truth_set) e.models with
    | .error s => .error s
    | .ok rows =>
        .ok { e with count := e.count + 1,
                     results := e.results ++
                       [⟨e.metrics.map Prod.fst, rows⟩] }
  else .error notTrainedMsg

/-- Position of a column name in a table's column list (pandas column
lookup; a missing column is a KeyError, modelled as `none`). -/
def colIndex : List String → String → Option ℕ
  | [], _ => none
  | c :: cs, name => if c = name then some 0 else (colIndex cs name).map (· + 1)

/-- `get_result`: `self.results[0]['eATE'].iat[0]` — the 'eATE' cell of
the first row of the first result table; a missing table, column or row
is a Python exception, modelled as `none`. -/
def get_result (e : Experiment) : Option NpFloat :=
  match e.results with
  | [] => none
  | t :: _ =>
      match colIndex t.columns "eATE", t.rows with
      | some j, r :: _ => r.2.get? j
      | _, _ => none

/-! ## The `add_noisy_spiked_proxy_generator` mechanism

The deterministic mechanism functions of
`add_noisy_spiked_proxy_generator` (experiment.py lines 585–594).
Feature vectors are rational lists; `x[i]` is `List.getD i 0` (all uses
in the claims supply long-enough vectors). -/

namespace NoisySpikedProxy

/-- `treatment_effect = lambda x: x[0] ** 2 + x[1] ** 2`. -/
def treatment_effect (x : List ℚ) : ℚ := (x.getD 0 0) ^ 2 + (x.getD 1 0) ^ 2

/-- `outcome_function = lambda main, treat, treat_eff, noise:
main + treat * treat_eff + noise`. -/
def outcome_function (main treat treat_eff noise : ℚ) : ℚ :=
  main + treat * treat_eff + noise

/-- `cate = lambda x: 1` — the ground-truth CATE the generator supplies
(the adjacent source comment asserts `E[Y1 - Y0 | X] = treat_eff(x)`). -/
def cate (_ : List ℚ) : ℚ := 1

/-- The analytic `outcome(treat=1) - outcome(treat=0)` of this
mechanism at fixed `x`, `main` and `noise`. -/
def analyticEffect (x : List ℚ) (main noise : ℚ) : ℚ :=
  outcome_function main 1 (treatment_effect x) noise -
    outcome_function main 0 (treatment_effect x) noise

end NoisySpikedProxy

/-- `true` iff a metric evaluation returned a score rather than raising. -/
def isOkR : Except String NpFloat → Bool
  | .ok _ => true
  | .error _ => false

/-! ## Theorems -/

/-- C1: the generator-contract invariant requires the supplied `cate` to
equal the mechanism's analytic `outcome(treat=1) - outcome(treat=0) | x`.
For `add_noisy_spiked_proxy_generator` that analytic effect is
`treatment_effect x = x[0]^2 + x[1]^2` for every `x`, `main` and
`noise`, yet the code supplies the constant `cate = lambda x: 1`:
at `x = [1, 1, 0, 0, 0]` the analytic effect is `2` while the supplied
`cate` returns `1`, contradicting the source's own adjacent comment
`E[Y1 - Y0 | X] = treat_eff(x)`. -/
theorem noisy_spiked_cate_code_bug :
    (∀ (x : List ℚ) (main noise : ℚ),
        NoisySpikedProxy.analyticEffect x main noise =
          NoisySpikedProxy.treatment_effect x) ∧
    NoisySpikedProxy.treatment_effect [1, 1, 0, 0, 0] = 2 ∧
    NoisySpikedProxy.cate [1, 1, 0, 0, 0] = 1 ∧
    NoisySpikedProxy.cate [1, 1, 0, 0, 0] ≠
      NoisySpikedProxy.treatment_effect [1, 1, 0, 0, 0] := by
  refine ⟨fun x main noise => ?_,
    by norm_num [NoisySpikedProxy.treatment_effect], rfl,
    by norm_num [NoisySpikedProxy.treatment_effect, NoisySpikedProxy.cate]⟩
  unfold NoisySpikedProxy.analyticEffect NoisySpikedProxy.outcome_function
  ring

/-- C2: with exactly two registered generators scoring `a` and `b`
(whatever their sample sizes), one model and one metric, `run` appends
one result table whose single cell is exactly `(a + b) / 2` — the
unweighted arithmetic mean — and marks the experiment trained. -/
theorem run_two_generators_mean (e : Experiment)
    (score : GenSpec → ℕ → List (List ℚ)) (g1 g2 : GenSpec) (n1 n2 : ℕ)
    (m : Model) (mname : String) (f : Metric) (a b : ℚ)
    (hg : e.generators = [(g1, n1), (g2, n2)])
    (hm : e.models = [m]) (hmet : e.metrics = [(mname, f)])
    (h1 : score g1 n1 = [[a]]) (h2 : score g2 n2 = [[b]]) :
    Experiment.run score e =
      .ok { e with
            results := e.results ++
              [⟨[mname], [(m.name, [some ((a + b) / 2)])]⟩],
            trained := true } := by
  unfold Experiment.run runSums modelDictionary
  rw [hg, hm, hmet]
  simp [List.foldl, npAdd, vecAdd, h1, h2, npDivCount, divQ, dictInsert,
    assembleRows]

/-- Concrete data for the C2 witness. -/
def wGen1 : GenSpec := ⟨0⟩

def wGen2 : GenSpec := ⟨1⟩

def wModel : Model := ⟨"m", fun _ => []⟩

def wExp : Experiment :=
  ⟨[], [(wGen1, 5), (wGen2, 7)], [wModel], [("k", trueATE)], false, 0⟩

def wScore : GenSpec → ℕ → List (List ℚ) :=
  fun g _ => if g.id = 0 then [[1]] else [[3]]

/-- C2 witness: two generators scoring `1` and `3` with sample sizes 5
and 7 average to `(1 + 3) / 2`. -/
theorem run_two_generators_mean_witness :
    Experiment.run wScore wExp =
      .ok { wExp with
            results := wExp.results ++
              [⟨["k"], [(wModel.name, [some ((1 + 3) / 2)])]⟩],
            trained := true } :=
  run_two_generators_mean wExp wScore wGen1 wGen2 5 7 wModel "k" trueATE
    1 3 rfl rfl rfl rfl rfl

/-- Concrete data for the C3 theorems: one model, one metric, zero
generators. -/
def cScore : GenSpec → ℕ → List (List ℚ) := fun _ _ => [[0]]

def cEmptyExp : Experiment :=
  ⟨[], [], [⟨"m", fun _ => []⟩], [("eATE", eATE)], false, 0⟩

/-- C3 counterexample: with zero generators and one metric, `run` does
not raise any configuration error before the averaging step — the
averaging division by `len(self.generators) = 0` is performed and
produces a NaN vector, and the failure that follows is a TypeError from
iterating the still-1-D array, not a configuration error. -/
theorem run_empty_generators_counterexample :
    npDivCount (runSums cScore cEmptyExp) cEmptyExp.generators.length =
      .vec [none] ∧
    Experiment.run cScore cEmptyExp =
      .error "TypeError: numpy.float64 object is not iterable" :=
  ⟨rfl, rfl⟩

/-- C3 (amended): on an experiment with no generators and at least one
metric, `run` performs the averaging division by zero, silently turning
the zero accumulator into an all-NaN vector, and then fails with a
TypeError while assembling the table — no configuration error is
raised beforehand. -/
theorem run_empty_generators_silent_nan (e : Experiment)
    (score : GenSpec → ℕ → List (List ℚ))
    (hg : e.generators = []) (hm : e.metrics ≠ []) :
    npDivCount (runSums score e) e.generators.length =
      .vec (List.replicate e.metrics.length none) ∧
    Experiment.run score e =
      .error "TypeError: numpy.float64 object is not iterable" := by
  have hsums : runSums score e = .vec (List.replicate e.metrics.length 0) := by
    unfold runSums
    rw [hg]
    exact List.foldl_nil
  have hdiv : npDivCount (runSums score e) e.generators.length =
      .vec (List.replicate e.metrics.length none) := by
    rw [hsums, hg]
    simp [npDivCount, divQ, List.map_replicate]
  refine ⟨hdiv, ?_⟩
  unfold Experiment.run
  rw [hdiv]
  have hne : (List.replicate e.metrics.length (none : NpFloat)).isEmpty =
      false := by
    cases hmt : e.metrics with
    | nil => exact absurd hmt hm
    | cons x xs => simp [hmt]
  simp [hne]

/-- C3 witness: the amended theorem at the concrete zero-generator
experiment. -/
theorem run_empty_generators_silent_nan_witness :
    npDivCount (runSums cScore cEmptyExp) cEmptyExp.generators.length =
      .vec (List.replicate cEmptyExp.metrics.length none) ∧
    Experiment.run cScore cEmptyExp =
      .error "TypeError: numpy.float64 object is not iterable" :=
  run_empty_generators_silent_nan cEmptyExp cScore rfl
    (List.cons_ne_nil _ _)

/-- `exMapM` success yields one output per input. -/
theorem exMapM_ok_length {α β : Type} (f : α → Except String β)
    (l : List α) (ys : List β) (h : exMapM f l = .ok ys) :
    ys.length = l.length := by
  induction l generalizing ys with
  | nil =>
      simp only [exMapM] at h
      cases h
      rfl
  | cons x xs ih =>
      simp only [exMapM] at h
      cases hx : f x with
      | error s => rw [hx] at h; cases h
      | ok y =>
          rw [hx] at h
          cases hxs : exMapM f xs with
          | error s => rw [hxs] at h; cases h
          | ok ys2 =>
              rw [hxs] at h
              cases h
              simp [ih ys2 hxs]

/-- C4: calling `test_specific_set` on an untrained experiment fails
with the precondition assertion (returning the error, so the result
store is untouched); any successful `run` sets `trained`; on a trained
experiment whose metric evaluations succeed, `test_specific_set`
succeeds and appends exactly one new table with exactly one row per
registered model. -/
theorem test_specific_set_contract (test_set : List (List ℚ))
    (truth_set : List ℚ) :
    (∀ e : Experiment, e.trained = false →
        test_specific_set test_set truth_set e = .error notTrainedMsg) ∧
    (∀ (score : GenSpec → ℕ → List (List ℚ)) (e e2 : Experiment),
        Experiment.run score e = .ok e2 → e2.trained = true) ∧
    (∀ (e : Experiment) (rows : List (String × List NpFloat)),
        e.trained = true →
        exMapM (modelRow e.metrics test_set truth_set) e.models = .ok rows →
        test_specific_set test_set truth_set e =
          .ok { e with count := e.count + 1,
                       results := e.results ++
                         [⟨e.metrics.map Prod.fst, rows⟩] } ∧
        rows.length = e.models.length) := by
  refine ⟨fun e he => ?_, fun score e e2 hrun => ?_, fun e rows ht hrows => ?_⟩
  · unfold test_specific_set
    rw [he]
    rfl
  · unfold Experiment.run at hrun
    split at hrun
    · split at hrun
      · cases hrun
        rfl
      · cases hrun
    · split at hrun
      · cases hrun
      · cases hrun
        rfl
  · unfold test_specific_set
    rw [ht, hrows]
    exact ⟨rfl, exMapM_ok_length _ _ _ hrows⟩

/-- Concrete data for the C4 witness: one model, one metric. -/
def tUntrained : Experiment :=
  ⟨[], [], [⟨"m", fun _ => [3]⟩], [("True ATE", trueATE)], false, 0⟩

def tTrained : Experiment :=
  ⟨[], [], [⟨"m", fun _ => [3]⟩], [("True ATE", trueATE)], true, 0⟩

/-- C4 witness: at the concrete untrained/trained experiments, with
`test_set = [[1]]` and `truth_set = [2]`. -/
theorem test_specific_set_contract_witness :
    test_specific_set [[1]] [2] tUntrained = .error notTrainedMsg ∧
    test_specific_set [[1]] [2] tTrained =
      .ok { tTrained with count := 1,
                          results := [⟨["True ATE"],
                            [("m", [some 2])]⟩] } ∧
    [("m", [(some 2 : NpFloat)])].length = tTrained.models.length := by
  have h := test_specific_set_contract [[1]] [2]
  have hrows : exMapM (modelRow tTrained.metrics [[1]] [2])
      tTrained.models = .ok [("m", [some 2])] := by
    norm_num [tTrained, exMapM, modelRow, trueATE, npMean]
  have h3 := h.2.2 tTrained [("m", [some 2])] rfl hrows
  exact ⟨h.1 tUntrained rfl, h3.1, h3.2⟩

/-- C5 counterexample: on `truth = [1, -1]` (ground-truth mean exactly
zero) the percent-ATE-error metric registered under 'eATE (%)' does not
raise or flag any boundary error — it returns normally, with the
non-finite scalar (`none`, numpy's NaN/Inf) produced by the silent
division by zero. -/
theorem percent_ate_zero_mean_counterexample :
    npMean [1, -1] = some 0 ∧
    eATEpercent [1, -1] [1, 1] = .ok none ∧
    dictLookup (add_ate_percent_error ⟨[], [], [], [], false, 0⟩).metrics
      "eATE (%)" = some eATEpercent := by
  refine ⟨by norm_num [npMean], ?_, rfl⟩
  norm_num [eATEpercent, npMean, nsub, ndivN, nabs, nmul]

/-- C5 (amended): whenever the ground-truth mean is exactly zero, the
percent-ATE-error metric silently returns the non-finite value (`none`,
numpy NaN/Inf) produced by dividing by that zero mean; no error is
raised. -/
theorem percent_ate_zero_mean_silent_nan (ite_truth ite_pred : List ℚ)
    (h : npMean ite_truth = some 0) :
    eATEpercent ite_truth ite_pred = .ok none := by
  unfold eATEpercent
  rw [h]
  cases npMean ite_pred <;> simp [nsub, ndivN, nabs, nmul]

/-- C5 witness: the amended theorem at `truth = [1, -1]`,
`pred = [1, 1]`. -/
theorem percent_ate_zero_mean_silent_nan_witness :
    eATEpercent [1, -1] [1, 1] = .ok none :=
  percent_ate_zero_mean_silent_nan [1, -1] [1, 1] (by norm_num [npMean])

/-- C6 counterexample: on mismatched lengths (`truth` of length 2,
`pred` of length 1) the True-ATE and absolute-ATE-error metrics do not
fail — they return scores (`3/2` and `7/2`), because the ATE metrics
only take means of each sequence separately.  PEHE with predictions
longer than truth also returns a score. -/
theorem metric_length_mismatch_counterexample :
    trueATE [1, 2] [5] = .ok (some (3 / 2)) ∧
    eATE [1, 2] [5] = .ok (some (7 / 2)) ∧
    peheMSE [1, 2] [5, 6, 7] = .ok (some 16) := by
  refine ⟨by norm_num [trueATE, npMean], ?_, ?_⟩
  · norm_num [eATE, npMean, nsub, nabs]
  · norm_num [peheMSE, peheBody, divQ, List.range, List.range.loop]

/-- C6 (amended): of the six built-in metrics, only the PEHE pair is
sensitive to a length mismatch, and only when the predictions are
strictly shorter than the truth (the list comprehension indexes
predictions up to `len(truth)`, raising IndexError); the four ATE-based
metrics always return a score, whatever the two lengths. -/
theorem builtin_metric_length_contract (ite_truth ite_pred : List ℚ) :
    isOkR (trueATE ite_truth ite_pred) = true ∧
    isOkR (estimatedATE ite_truth ite_pred) = true ∧
    isOkR (eATE ite_truth ite_pred) = true ∧
    isOkR (eATEpercent ite_truth ite_pred) = true ∧
    (isOkR (peheMSE ite_truth ite_pred) = true ↔
      ite_truth.length ≤ ite_pred.length) ∧
    (isOkR (peheMAE ite_truth ite_pred) = true ↔
      ite_truth.length ≤ ite_pred.length) := by
  refine ⟨rfl, rfl, rfl, rfl, ?_, ?_⟩ <;>
  · simp only [peheMSE, peheMAE, peheBody]
    split <;> simp_all [isOkR]

/-- C7: `clear` preserves the models list, empties the generators and
results lists and resets the `trained` flag. -/
theorem clear_preserves_models (e : Experiment) :
    (clear e).models = e.models ∧ (clear e).generators = [] ∧
    (clear e).results = [] ∧ (clear e).trained = false :=
  ⟨rfl, rfl, rfl, rfl⟩

/-- C8: when the experiment has a first result table, that table has an
'eATE' column (at position `j`) and a first row whose cell at `j` is
`v`, `get_result` returns exactly that cell — the 'eATE' value of the
first row of the first result table. -/
theorem get_result_first_table_eate (e : Experiment) (t : ResultTable)
    (rest : List ResultTable) (r : String × List NpFloat)
    (rs : List (String × List NpFloat)) (j : ℕ) (v : NpFloat)
    (hres : e.results = t :: rest)
    (hcol : colIndex t.columns "eATE" = some j)
    (hrow : t.rows = r :: rs) (hcell : r.2.get? j = some v) :
    get_result e = some v := by
  unfold get_result
  rw [hres]
  simp only [hcol, hrow]
  simpa [List.get?_eq_getElem?] using hcell

/-- C8 witness: a concrete store whose first table has columns
`["True ATE", "eATE"]` and first row `("m", [some 3, some (1/2)])`. -/
theorem get_result_first_table_eate_witness :
    get_result ⟨[⟨["True ATE", "eATE"],
        [("m", [some 3, some (1 / 2)]), ("m2", [none, none])]⟩],
      [], [], [], true, 0⟩ = some (some (1 / 2)) :=
  get_result_first_table_eate _ _ [] ("m", [some 3, some (1 / 2)])
    [("m2", [none, none])] 1 (some (1 / 2)) rfl (by decide) rfl rfl

/-- Looking up the key just assigned returns the new value. -/
theorem dictLookup_insert_self {α : Type} (l : List (String × α)) (k : String)
    (v : α) : dictLookup (dictInsert l k v) k = some v := by
  induction l with
  | nil => simp [dictInsert, dictLookup]
  | cons kv rest ih =>
      obtain ⟨k1, v1⟩ := kv
      by_cases h : k1 = k <;> simp [dictInsert, dictLookup, h, ih]

/-- Assigning one key leaves all other keys' lookups unchanged. -/
theorem dictLookup_insert_ne {α : Type} (l : List (String × α))
    (k k2 : String) (v : α) (h : k2 ≠ k) :
    dictLookup (dictInsert l k2 v) k = dictLookup l k := by
  induction l with
  | nil => simp [dictInsert, dictLookup, h]
  | cons kv rest ih =>
      obtain ⟨k1, v1⟩ := kv
      by_cases h1 : k1 = k2
      · subst h1
        simp [dictInsert, dictLookup, h]
      · simp [dictInsert, dictLookup, h1, ih]

/-- Re-assigning a key to the value it already holds is a no-op: the
entry is replaced in place, keeping its insertion position. -/
theorem dictInsert_lookup_eq {α : Type} (l : List (String × α)) (k : String)
    (v : α) (h : dictLookup l k = some v) : dictInsert l k v = l := by
  induction l with
  | nil => simp [dictLookup] at h
  | cons kv rest ih =>
      obtain ⟨k1, v1⟩ := kv
      by_cases h1 : k1 = k
      · simp [dictLookup, h1] at h
        simp [dictInsert, h1, h]
      · simp [dictLookup, h1] at h
        simp [dictInsert, h1, ih h]

/-- The six-name dictionary update performed by one `add_all_metrics`
call, as a function on the metric dictionary. -/
def sixMetricInsert (l : List (String × Metric)) : List (String × Metric) :=
  dictInsert (dictInsert (dictInsert (dictInsert (dictInsert (dictInsert
    l "eATE" eATE) "eATE (%)" eATEpercent) "True ATE" trueATE)
    "Est. ATE" estimatedATE) "PEHE (MSE)" peheMSE) "PEHE (MAE)" peheMAE

/-- `add_all_metrics` only rewrites the metric dictionary, via
`sixMetricInsert`. -/
theorem add_all_metrics_eq (e : Experiment) :
    add_all_metrics e = { e with metrics := sixMetricInsert e.metrics } :=
  rfl

/-- After `sixMetricInsert`, each of the six names holds its metric. -/
theorem sixMetricInsert_lookup (l : List (String × Metric)) :
    dictLookup (sixMetricInsert l) "eATE" = some eATE ∧
    dictLookup (sixMetricInsert l) "eATE (%)" = some eATEpercent ∧
    dictLookup (sixMetricInsert l) "True ATE" = some trueATE ∧
    dictLookup (sixMetricInsert l) "Est. ATE" = some estimatedATE ∧
    dictLookup (sixMetricInsert l) "PEHE (MSE)" = some peheMSE ∧
    dictLookup (sixMetricInsert l) "PEHE (MAE)" = some peheMAE := by
  unfold sixMetricInsert
  refine ⟨?_, ?_, ?_, ?_, ?_, ?_⟩ <;>
  · repeat rw [dictLookup_insert_ne _ _ _ _ (by decide)]
    exact dictLookup_insert_self _ _ _

/-- C9: registering a metric under an existing name replaces the
function in place (shown by the `dictInsert`/`dictLookup` lemmas used
here), so `add_all_metrics` is idempotent on the whole experiment
state; starting from an empty metric dictionary it produces exactly the
six built-in entries in registration order. -/
theorem add_all_metrics_idempotent (e : Experiment) :
    add_all_metrics (add_all_metrics e) = add_all_metrics e ∧
    (add_all_metrics { e with metrics := [] }).metrics =
      [("eATE", eATE), ("eATE (%)", eATEpercent), ("True ATE", trueATE),
       ("Est. ATE", estimatedATE), ("PEHE (MSE)", peheMSE),
       ("PEHE (MAE)", peheMAE)] := by
  constructor
  · rw [add_all_metrics_eq, add_all_metrics_eq]
    show ({ e with metrics := sixMetricInsert (sixMetricInsert e.metrics) }
        : Experiment) = { e with metrics := sixMetricInsert e.metrics }
    have h := sixMetricInsert_lookup e.metrics
    have key : sixMetricInsert (sixMetricInsert e.metrics) =
        sixMetricInsert e.metrics := by
      conv_lhs => rw [sixMetricInsert]
      rw [dictInsert_lookup_eq _ _ _ h.1,
          dictInsert_lookup_eq _ _ _ h.2.1,
          dictInsert_lookup_eq _ _ _ h.2.2.1,
          dictInsert_lookup_eq _ _ _ h.2.2.2.1,
          dictInsert_lookup_eq _ _ _ h.2.2.2.2.1,
          dictInsert_lookup_eq _ _ _ h.2.2.2.2.2]
    rw [key]
  · rfl

/-- C10: the 'True ATE' metric registered by `add_true_ate` never looks
at the predictions: any two prediction sequences give the same value,
the mean of the ground-truth sequence. -/
theorem true_ate_ignores_predictions (ite_truth p1 p2 : List ℚ) :
    trueATE ite_truth p1 = trueATE ite_truth p2 ∧
    trueATE ite_truth p1 = .ok (npMean ite_truth) :=
  ⟨rfl, rfl⟩

end CevaeEval
